import Mathlib

/-!
Formal model of `simnet.py` (class `SIMNet`): session state, login, simbook
assignment completion, and the SIMpath / SIMnet exam runners.

Python strings are modelled as `List Char`; HTTP traffic is modelled by an
event trace: each outbound request is recorded together with a snapshot of
the session state at the moment it is issued.  Randomness (`random.randint`)
is modelled by an explicit stream `rand : Nat → Nat` giving the value of the
k-th draw made by the operation.  Request headers (identity headers, Referer,
Content-Length) carry no control flow and are elided from the event trace.
-/

namespace Simnet

/-- Python-level errors raised by `simnet.py`: the exception classes defined
in the file plus the builtin errors its code can raise. -/
inductive PyError where
  | notLoggedIn
  | simpathNotStarted
  | examNotStarted
  | couldNotLogin (status : Nat) (reason : List Char) (username : List Char)
      (password : List Char) (body : List Char)
  | valueErrorUnpack (expected : Nat) (got : Nat)
  | attributeError (name : List Char)
  | nameError (name : List Char)
  | indexError
deriving DecidableEq

/-- Python `str.split(sep)` for a one-character separator. -/
def pySplitChar (sep : Char) : List Char → List (List Char)
  | [] => [[]]
  | c :: rest =>
    match pySplitChar sep rest with
    | [] => [[]]
    | f :: fs => if c = sep then [] :: f :: fs else (c :: f) :: fs

/-- Split a string at the first occurrence of `sep`:
`(part before, some part after)`, or `(whole string, none)` when `sep` is
absent.  This is Python `s.split(sep, 1)`. -/
def breakAtFirst (sep : Char) : List Char → List Char × Option (List Char)
  | [] => ([], none)
  | c :: rest =>
    if c = sep then ([], some rest)
    else
      let r := breakAtFirst sep rest
      (c :: r.1, r.2)

/-- Whether `pat` occurs as a contiguous substring of the second argument. -/
def containsSub (pat : List Char) : List Char → Bool
  | [] => pat.isEmpty
  | c :: rest => pat.isPrefixOf (c :: rest) || containsSub pat rest

/-- Fuel-indexed worker for Python `str.replace`. -/
def pyReplaceAux (pat rep : List Char) : Nat → List Char → List Char
  | 0, s => s
  | _ + 1, [] => []
  | fuel + 1, c :: rest =>
    if pat ≠ [] ∧ pat.isPrefixOf (c :: rest) then
      rep ++ pyReplaceAux pat rep fuel ((c :: rest).drop pat.length)
    else
      c :: pyReplaceAux pat rep fuel rest

/-- Python `s.replace(pat, rep)`: replace all non-overlapping occurrences of
`pat` in `s`, scanning left to right.  (For the empty pattern, which never
occurs in `simnet.py`, this returns `s` unchanged.) -/
def pyReplace (pat rep s : List Char) : List Char :=
  pyReplaceAux pat rep s.length s

/-- UTF-8 bytes of a character. -/
def utf8Bytes (c : Char) : List Nat :=
  let n := c.toNat
  if n < 128 then [n]
  else if n < 2048 then [192 + n / 64, 128 + n % 64]
  else if n < 65536 then [224 + n / 4096, 128 + n / 64 % 64, 128 + n % 64]
  else [240 + n / 262144, 128 + n / 4096 % 64, 128 + n / 64 % 64, 128 + n % 64]

/-- Uppercase hexadecimal digit. -/
def hexDigit (n : Nat) : Char :=
  if n < 10 then Char.ofNat (48 + n) else Char.ofNat (55 + n)

/-- Percent-encoding of one byte. -/
def pctByte (b : Nat) : List Char :=
  ['%', hexDigit (b / 16), hexDigit (b % 16)]

/-- Python `urllib.parse.quote_plus`: keep ASCII alphanumerics and `_.-~`,
turn spaces into `+`, percent-encode the UTF-8 bytes of everything else. -/
def quote_plus (s : List Char) : List Char :=
  s.flatMap fun c =>
    if c = ' ' then ['+']
    else if c.isAlphanum || c = '_' || c = '.' || c = '-' || c = '~' then [c]
    else (utf8Bytes c).flatMap pctByte

/-- Decimal rendering of a natural number, as Python `str(n)`. -/
def natChars (n : Nat) : List Char := (toString n).toList

/-- Decimal rendering of an integer, as Python `str(i)`. -/
def intChars (i : Int) : List Char := (toString i).toList

/-- The fragment component of a URL (`urllib.parse.urlparse(url).fragment`):
everything after the first `#`. -/
def urlFragment (url : List Char) : List Char :=
  ((breakAtFirst '#' url).2).getD []

/-- The query component of a URL (`urllib.parse.urlparse(url).query`): the
part after the first `?` of the fragment-stripped URL. -/
def urlQuery (url : List Char) : List Char :=
  ((breakAtFirst '?' (breakAtFirst '#' url).1).2).getD []

/-- Identifiers extracted from an assignment URL by
`complete_simbook_assignment_from_url` (simnet.py lines 178-187). -/
structure AssignmentRef where
  loid : List Char
  assignment_id : List Char
  page_slug : List Char
deriving DecidableEq

/-- The URL-parsing steps of `complete_simbook_assignment_from_url`
(simnet.py lines 178-187): split the query component on `&`, destructure
into exactly four fields (Python unpacking raises `ValueError` for any
other count), strip every occurrence of `l=` resp. `a=` from the first two
fields via `str.replace`, and take the fragment verbatim as the page slug. -/
def parse_assignment_url (url : List Char) : Except PyError AssignmentRef :=
  match pySplitChar '&' (urlQuery url) with
  | [f1, f2, _, _] =>
    .ok { loid := pyReplace "l=".toList [] f1
          assignment_id := pyReplace "a=".toList [] f2
          page_slug := urlFragment url }
  | fields => .error (.valueErrorUnpack 4 fields.length)

/-- Session state of the `SIMNet` class (`__init__`, simnet.py lines 51-74):
the configuration fields and the three mutable flags.  `base_url` and the
header template are derived from `school` and `api_key`. -/
structure SIMNet where
  school : List Char
  api_key : List Char
  logged_in : Bool
  is_in_simpath : Bool
  is_in_exam : Bool
deriving DecidableEq

/-- `SIMNet.__init__`: lower-case the school name, start logged out and in
no exam phase. -/
def SIMNet.create (school api_key : List Char) : SIMNet :=
  { school := school.map Char.toLower
    api_key := api_key
    logged_in := false
    is_in_simpath := false
    is_in_exam := false }

/-- `self.base_url = f"http://{self.school}.simnetonline.com"`. -/
def SIMNet.base_url (st : SIMNet) : List Char :=
  "http://".toList ++ st.school ++ ".simnetonline.com".toList

/-- Form payload of a `saveanswer` POST (simnet.py lines 379-389 and
501-510).  `lessonType` is `some 4` for the SIMpath variant and absent for
the SIMnet-exam variant. -/
structure AnswerPayload where
  contentVersion : List Char
  questionID : List Char
  attempt : Nat
  answer : List Char
  readableAnswer : List Char
  secondsRemaining : Int
  secondsSpent : Nat
  isCorrect : Bool
  lessonType : Option Nat
deriving DecidableEq

/-- Python's `str({})`, the serialisation of the empty `answer` dict. -/
def emptyDictChars : List Char := ['\x7b', '\x7d']

/-- One outbound HTTP request, by method, URL and body/query payload. -/
inductive Request where
  | get (url : List Char)
  | getDetails (url : List Char) (lessonType : List Char)
  | getSave (url : List Char) (lessonType : List Char) (isComplete : Bool) (timeSpent : Nat)
  | post (url : List Char) (payload : AnswerPayload)
  | signin (url : List Char) (username : List Char) (password : List Char)
deriving DecidableEq

/-- A trace entry: the request together with a snapshot of the session
state at the moment the request is issued. -/
structure Event where
  req : Request
  snap : SIMNet
deriving DecidableEq

/-- Result of running one `SIMNet` method: the state of the object after
the call (Python mutations persist even when an exception propagates), the
requests issued, and the returned value or raised error. -/
structure OpResult (α : Type) where
  state : SIMNet
  events : List Event
  value : Except PyError α

/-- The payloads of the POST requests in a call's trace. -/
def postedPayloads {α : Type} (r : OpResult α) : List AnswerPayload :=
  r.events.filterMap fun e =>
    match e.req with
    | .post _ p => some p
    | _ => none

/-- The URLs of the POST requests in a call's trace. -/
def postedUrls {α : Type} (r : OpResult α) : List (List Char) :=
  r.events.filterMap fun e =>
    match e.req with
    | .post u _ => some u
    | _ => none

/-- The URL of a request. -/
def requestUrl : Request → List Char
  | .get u => u
  | .getDetails u _ => u
  | .getSave u _ _ _ => u
  | .post u _ => u
  | .signin u _ _ => u

/-- The URLs of all requests in a call's trace. -/
def eventUrls {α : Type} (r : OpResult α) : List (List Char) :=
  r.events.map fun e => requestUrl e.req

/-- An HTTP response as seen through the `requests` library. -/
structure HttpResponse where
  status : Nat
  reason : List Char
  body : List Char
deriving DecidableEq

/-- `requests.Response.ok`: true iff the status code is below 400. -/
def HttpResponse.ok (r : HttpResponse) : Bool :=
  decide (r.status < 400)

/-- `SIMNet.login` (simnet.py lines 76-118): POST the credentials to
`/api/users/signin`; on a non-success response raise `CouldNotLoginError`
carrying the response status, reason, the supplied username and password,
and the raw body; on success set `logged_in`. -/
def login (st : SIMNet) (username password : List Char) (resp : HttpResponse) :
    OpResult Unit :=
  let ev : Event := ⟨.signin (st.base_url ++ "/api/users/signin".toList) username password, st⟩
  if resp.ok then
    ⟨{ st with logged_in := true }, [ev], .ok ()⟩
  else
    ⟨st, [ev], .error (.couldNotLogin resp.status resp.reason username password resp.body)⟩

/-- `complete_simbook_assignment_from_url` (simnet.py lines 144-196):
guard on `logged_in`, parse the assignment URL, GET the simbook save
endpoint, and return `req.ok` whatever the response status is.
`timeSpent` models the `random.randint(30, 230)` draw. -/
def complete_simbook_assignment_from_url (st : SIMNet) (url : List Char)
    (task_complete_id : Nat) (timeSpent : Nat) (resp : HttpResponse) :
    OpResult Bool :=
  if st.logged_in then
    match parse_assignment_url url with
    | .error e => ⟨st, [], .error e⟩
    | .ok r =>
      ⟨st,
       [⟨.getSave
           (st.base_url ++ "/api/simbooks/".toList ++ r.loid ++ "/save/".toList ++
             r.assignment_id ++ "/".toList ++ natChars task_complete_id ++ "/".toList ++
             r.page_slug)
           "SIMbookLesson".toList true timeSpent, st⟩],
       .ok resp.ok⟩
  else ⟨st, [], .error .notLoggedIn⟩

/-- A per-task completion descriptor, as yielded by
`get_simbook_assignments` (simnet.py lines 271-277). -/
structure TaskDict where
  loid : Nat
  assignment_id : Nat
  task_complete_id : Nat
  page_slug : List Char
  is_completed : Bool
deriving DecidableEq

/-- `complete_simbook_assignment_from_dict` (simnet.py lines 198-237):
guard on `logged_in`, GET the simbook save endpoint built from the
descriptor's fields, and return `req.ok`. -/
def complete_simbook_assignment_from_dict (st : SIMNet) (d : TaskDict)
    (timeSpent : Nat) (resp : HttpResponse) : OpResult Bool :=
  if st.logged_in then
    ⟨st,
     [⟨.getSave
         (st.base_url ++ "/api/simbooks/".toList ++ natChars d.loid ++ "/save/".toList ++
           natChars d.assignment_id ++ "/".toList ++ natChars d.task_complete_id ++
           "/".toList ++ d.page_slug)
         "SIMbookLesson".toList true timeSpent, st⟩],
     .ok resp.ok⟩
  else ⟨st, [], .error .notLoggedIn⟩

/-- One task record of the simbook details response. -/
structure SimbookTask where
  taskCompleteID : Nat
  pageSlug : List Char
  timesCompleted : Nat
deriving DecidableEq

/-- One entry of `results` in the simbook details response. -/
structure SimbookDetailsResult where
  assignmentID : Nat
  loid : Nat
  tasks : List SimbookTask
deriving DecidableEq

/-- `get_simbook_assignments` (simnet.py lines 239-277): guard on
`logged_in`, GET the assignment details, index `results[0]` (an empty
`results` list raises `IndexError`), and yield one descriptor per task in
the order returned by the platform. -/
def get_simbook_assignments (st : SIMNet) (assignment_id : Nat)
    (results : List SimbookDetailsResult) : OpResult (List TaskDict) :=
  if st.logged_in then
    let ev : Event :=
      ⟨.getDetails
          (st.base_url ++ "/api/assignments/simbooks/".toList ++ natChars assignment_id ++
            "/details".toList)
          "0".toList, st⟩
    match results with
    | [] => ⟨st, [ev], .error .indexError⟩
    | r :: _ =>
      ⟨st, [ev],
       .ok (r.tasks.map fun t =>
         { loid := r.loid
           assignment_id := r.assignmentID
           task_complete_id := t.taskCompleteID
           page_slug := t.pageSlug
           is_completed := decide (0 < t.timesCompleted) })⟩
  else ⟨st, [], .error .notLoggedIn⟩

/-- One question of an exam initialization response. -/
structure ExamInitQuestion where
  id : List Char
  hint : List Char
  attempts : Nat
deriving DecidableEq

/-- Decoded body of the `init` response of either exam variant. -/
structure ExamInitResponse where
  assignmentID : Nat
  loid : Nat
  contentVersion : List Char
  questions : List ExamInitQuestion
deriving DecidableEq

/-- One entry of `question_dicts` as assembled by `complete_simpath_exam`
(simnet.py lines 309-324) and `complete_exam` (lines 429-444). -/
structure QuestionDict where
  assignment_id : Nat
  loid : Nat
  question_id : List Char
  readable_answer : List Char
  attempt : Nat
  content_version : List Char
  seconds_spent : Nat
  seconds_remaining : Int
deriving DecidableEq

/-- The `for question in j["questions"]` loop shared by both exam runners
(simnet.py lines 309-324 / 429-444): draw `seconds_spent` for each
question (the k-th draw of the run is `rand k`), decrement the running
budget `sr` before recording it in the dict, and store the platform's
prior attempt count plus one.  Returns the dict list and the final value
of `seconds_remaining`. -/
def build_question_dicts (aid loid : Nat) (cv : List Char) (rand : Nat → Nat) :
    Nat → Int → List ExamInitQuestion → List QuestionDict × Int
  | _, sr, [] => ([], sr)
  | k, sr, q :: qs =>
    let s := rand k
    let sr' := sr - (s : Int)
    let rest := build_question_dicts aid loid cv rand (k + 1) sr' qs
    ({ assignment_id := aid
       loid := loid
       question_id := q.id
       readable_answer := q.hint
       attempt := q.attempts + 1
       content_version := cv
       seconds_spent := s
       seconds_remaining := sr' } :: rest.1,
     rest.2)

/-- URL of the SIMpath details fetch (simnet.py line 295). -/
def simpath_details_url (st : SIMNet) (assignment_id : Nat) : List Char :=
  st.base_url ++ "/api/assignments/simpaths/".toList ++ natChars assignment_id ++
    "/details?lessonType=4".toList

/-- URL of the SIMpath exam initialization (simnet.py line 301). -/
def simpath_init_url (st : SIMNet) (loid assignment_id : Nat) : List Char :=
  st.base_url ++ "/api/simpathexams/".toList ++ natChars loid ++ "/init/".toList ++
    natChars assignment_id ++ "/1".toList

/-- URL of the SIMpath exam start call (simnet.py line 328). -/
def simpath_start_url (st : SIMNet) (loid assignment_id : Nat) : List Char :=
  st.base_url ++ "/api/simpathexams/".toList ++ natChars loid ++ "/start/".toList ++
    natChars assignment_id ++ "/1".toList

/-- URL of the SIMpath exam end call (simnet.py line 338). -/
def simpath_end_url (st : SIMNet) (loid assignment_id : Nat) (seconds : Int) : List Char :=
  st.base_url ++ "/api/simpathexams/".toList ++ natChars loid ++ "/end/".toList ++
    natChars assignment_id ++ "/1?seconds=".toList ++ intChars seconds

/-- URL of the SIMnet exam details fetch (simnet.py line 415). -/
def exam_details_url (st : SIMNet) (assignment_id : Nat) : List Char :=
  st.base_url ++ "/api/assignments/exams/".toList ++ natChars assignment_id ++
    "/details".toList

/-- URL of the SIMnet exam initialization (simnet.py line 421). -/
def exam_init_url (st : SIMNet) (loid assignment_id : Nat) : List Char :=
  st.base_url ++ "/api/simnetexams/".toList ++ natChars loid ++ "/init/".toList ++
    natChars assignment_id ++ "/1".toList

/-- URL of the SIMnet exam start call (simnet.py line 448). -/
def exam_start_url (st : SIMNet) (loid assignment_id : Nat) : List Char :=
  st.base_url ++ "/api/simnetexams/".toList ++ natChars loid ++ "/start/".toList ++
    natChars assignment_id ++ "/1".toList

/-- URL of the SIMnet exam end call (simnet.py line 459). -/
def exam_end_url (st : SIMNet) (loid assignment_id : Nat) (seconds : Int) : List Char :=
  st.base_url ++ "/api/simnetexams/".toList ++ natChars loid ++ "/end/".toList ++
    natChars assignment_id ++ "/1?seconds=".toList ++ intChars seconds

/-- `_complete_simpath_question` (simnet.py lines 343-397): guard on
`logged_in` (outer decorator) then on `is_in_simpath`; POST the answer
payload to the SIMpath `saveanswer` endpoint, prefixed with the base URL.
The reported `secondsRemaining` is clamped at line 385 to
`min(seconds_remaining, 600000 - seconds_spent)`. -/
def _complete_simpath_question (st : SIMNet) (d : QuestionDict) : OpResult Unit :=
  if !st.logged_in then ⟨st, [], .error .notLoggedIn⟩
  else if !st.is_in_simpath then ⟨st, [], .error .simpathNotStarted⟩
  else
    ⟨st,
     [⟨.post
         (st.base_url ++ "/api/simpathexams/".toList ++ natChars d.loid ++
           "/saveanswer/".toList ++ natChars d.assignment_id ++ "/1".toList)
         { contentVersion := d.content_version
           questionID := d.question_id
           attempt := d.attempt
           answer := emptyDictChars
           readableAnswer := quote_plus d.readable_answer
           secondsRemaining := min d.seconds_remaining (600000 - (d.seconds_spent : Int))
           secondsSpent := d.seconds_spent
           isCorrect := true
           lessonType := some 4 }, st⟩],
     .ok ()⟩

/-- `_complete_exam_question` (simnet.py lines 464-518): guard on
`logged_in` then on `is_in_exam`; POST the answer payload — with the same
clamp at line 507 — to the bare path
`/api/simnetexams/{loid}/saveanswer/{assignment_id}/1`, which unlike every
other request is NOT prefixed with `self.base_url` (line 515). -/
def _complete_exam_question (st : SIMNet) (d : QuestionDict) : OpResult Unit :=
  if !st.logged_in then ⟨st, [], .error .notLoggedIn⟩
  else if !st.is_in_exam then ⟨st, [], .error .examNotStarted⟩
  else
    ⟨st,
     [⟨.post
         ("/api/simnetexams/".toList ++ natChars d.loid ++ "/saveanswer/".toList ++
           natChars d.assignment_id ++ "/1".toList)
         { contentVersion := d.content_version
           questionID := d.question_id
           attempt := d.attempt
           answer := emptyDictChars
           readableAnswer := quote_plus d.readable_answer
           secondsRemaining := min d.seconds_remaining (600000 - (d.seconds_spent : Int))
           secondsSpent := d.seconds_spent
           isCorrect := true
           lessonType := none }, st⟩],
     .ok ()⟩

/-- `complete_simpath_exam` (simnet.py lines 279-341): guard on
`logged_in`; GET the details (whose response supplies `details_loid`);
GET the init endpoint; build `question_dicts`; GET the start endpoint and
set `is_in_simpath`.  When the question list is non-empty, the loop body
`self.complete_simpath_question(**question)` (line 334) looks up an
attribute that does not exist on the class — the method is named
`_complete_simpath_question` — so Python raises `AttributeError` before
any answer is submitted, leaving `is_in_simpath` set.  Only when there are
no questions does the run reach the end call and clear the flag. -/
def complete_simpath_exam (st : SIMNet) (assignment_id : Nat) (details_loid : Nat)
    (j : ExamInitResponse) (rand : Nat → Nat) : OpResult Unit :=
  if st.logged_in then
    let e1 : Event := ⟨.get (simpath_details_url st assignment_id), st⟩
    let e2 : Event := ⟨.get (simpath_init_url st details_loid assignment_id), st⟩
    let p := build_question_dicts j.assignmentID j.loid j.contentVersion rand 0 600000 j.questions
    let e3 : Event := ⟨.get (simpath_start_url st j.loid j.assignmentID), st⟩
    let st1 : SIMNet := { st with is_in_simpath := true }
    if p.1.isEmpty then
      ⟨{ st1 with is_in_simpath := false },
       [e1, e2, e3, ⟨.get (simpath_end_url st1 j.loid j.assignmentID p.2), st1⟩],
       .ok ()⟩
    else
      ⟨st1, [e1, e2, e3], .error (.attributeError "complete_simpath_question".toList)⟩
  else ⟨st, [], .error .notLoggedIn⟩

/-- `complete_exam` (simnet.py lines 399-462): same lifecycle against the
SIMnet-exam endpoints.  When the question list is non-empty, the loop body
first evaluates `time.sleep(...)` (line 454) but the module never imports
`time`, so Python raises `NameError` before any answer is submitted,
leaving `is_in_exam` set. -/
def complete_exam (st : SIMNet) (assignment_id : Nat) (details_loid : Nat)
    (j : ExamInitResponse) (rand : Nat → Nat) : OpResult Unit :=
  if st.logged_in then
    let e1 : Event := ⟨.get (exam_details_url st assignment_id), st⟩
    let e2 : Event := ⟨.get (exam_init_url st details_loid assignment_id), st⟩
    let p := build_question_dicts j.assignmentID j.loid j.contentVersion rand 0 600000 j.questions
    let e3 : Event := ⟨.get (exam_start_url st j.loid j.assignmentID), st⟩
    let st1 : SIMNet := { st with is_in_exam := true }
    if p.1.isEmpty then
      ⟨{ st1 with is_in_exam := false },
       [e1, e2, e3, ⟨.get (exam_end_url st1 j.loid j.assignmentID p.2), st1⟩],
       .ok ()⟩
    else
      ⟨st1, [e1, e2, e3], .error (.nameError "time".toList)⟩
  else ⟨st, [], .error .notLoggedIn⟩

/-- Sum of the draws `rand k0, rand (k0+1), ..., rand (k0+n-1)`. -/
def sumFrom (rand : Nat → Nat) (k0 : Nat) : Nat → Nat
  | 0 => 0
  | n + 1 => sumFrom rand k0 n + rand (k0 + n)

/-- A logged-in session in no exam phase. -/
def exSt : SIMNet :=
  { school := "sonoma".toList
    api_key := "key".toList
    logged_in := true
    is_in_simpath := false
    is_in_exam := false }

/-- A logged-in session with both exam-phase flags set, for direct
per-question calls. -/
def exStPhase : SIMNet := { exSt with is_in_simpath := true, is_in_exam := true }

/-- A logged-out session. -/
def exStOut : SIMNet := { exSt with logged_in := false }

/-- A constant duration stream. -/
def constRand : Nat → Nat := fun _ => 30

/-- A duration stream drawing 100 seconds for the first question and 50
seconds for each later one. -/
def c1rand : Nat → Nat := fun k => if k = 0 then 100 else 50

/-- A two-question initialization response. -/
def c1init : ExamInitResponse :=
  { assignmentID := 4100478
    loid := 174400
    contentVersion := "V3".toList
    questions := [⟨"q1".toList, "h1".toList, 0⟩, ⟨"q2".toList, "h2".toList, 1⟩] }

/-- An initialization response with no questions: the only kind of run the
exam runners complete, given the broken per-question loops. -/
def c2init : ExamInitResponse :=
  { assignmentID := 4100478
    loid := 174400
    contentVersion := "V3".toList
    questions := [] }

/-- A three-question initialization response with prior attempt counts
0, 1 and 2. -/
def c7init : ExamInitResponse :=
  { assignmentID := 4100478
    loid := 174400
    contentVersion := "V3".toList
    questions := [⟨"q1".toList, "h1".toList, 0⟩, ⟨"q2".toList, "h2".toList, 1⟩,
      ⟨"q3".toList, "h3".toList, 2⟩] }

/-- A one-question initialization response. -/
def c9init : ExamInitResponse :=
  { assignmentID := 1
    loid := 2
    contentVersion := "V3".toList
    questions := [⟨"q".toList, "h".toList, 0⟩] }

/-- A well-formed assignment URL of the documented shape. -/
def c3url : List Char :=
  "http://sonoma.simnetonline.com/sb/?l=1744&a=4100478&t=5&redirect_uri=x#ex16_sk_01_01".toList

/-- An assignment URL whose first query field is `l=1l=2`: the lesson id
`1l=2` itself contains the substring `l=`. -/
def c3badUrl : List Char :=
  "http://sonoma.simnetonline.com/sb/?l=1l=2&a=34&t=5&redirect_uri=x#fr".toList

/-- An assignment URL with a four-field query whose first field lacks the
`l=` marker. -/
def c4url : List Char :=
  "http://sonoma.simnetonline.com/sb/?x=1&a=2&t=5&redirect_uri=x#f".toList

/-- An assignment URL with a five-field query in which both `l=` and `a=`
markers are present. -/
def c4url5 : List Char :=
  "http://sonoma.simnetonline.com/sb/?l=1&a=2&t=5&redirect_uri=x&extra=1#f".toList

/-- The 403 login response of the spec's scenario. -/
def resp403 : HttpResponse :=
  { status := 403, reason := "Forbidden".toList, body := "invalid credentials".toList }

/-- A non-success response to a completion request. -/
def resp500 : HttpResponse :=
  { status := 500, reason := "Internal Server Error".toList, body := "".toList }

/-- A concrete per-task completion descriptor. -/
def exTask : TaskDict :=
  { loid := 1744
    assignment_id := 4100478
    task_complete_id := 362745216
    page_slug := "ex16_sk_01_01".toList
    is_completed := false }

/-- A concrete question dict. -/
def exQd : QuestionDict :=
  { assignment_id := 4100478
    loid := 174400
    question_id := "q1".toList
    readable_answer := "h1".toList
    attempt := 1
    content_version := "V3".toList
    seconds_spent := 50
    seconds_remaining := 599950 }

lemma pyReplaceAux_congr (pat rep : List Char) :
    ∀ (f1 f2 : Nat) (s : List Char), s.length ≤ f1 → s.length ≤ f2 →
      pyReplaceAux pat rep f1 s = pyReplaceAux pat rep f2 s := by
  intro f1
  induction f1 with
  | zero =>
    intro f2 s h1 _
    have hs : s = [] := List.eq_nil_of_length_eq_zero (Nat.le_zero.mp h1)
    subst hs
    cases f2 <;> rfl
  | succ n ih =>
    intro f2 s h1 h2
    cases s with
    | nil => cases f2 <;> rfl
    | cons c rest =>
      cases f2 with
      | zero => simp only [List.length_cons] at h2; omega
      | succ m =>
        simp only [pyReplaceAux]
        by_cases hc : pat ≠ [] ∧ pat.isPrefixOf (c :: rest)
        · simp only [if_pos hc]
          have hp : 1 ≤ pat.length := by
            cases pat with
            | nil => exact absurd rfl hc.1
            | cons a as => simp
          simp only [List.length_cons] at h1 h2
          have hd : ((c :: rest).drop pat.length).length ≤ n := by
            simp only [List.length_drop, List.length_cons]
            omega
          have hd2 : ((c :: rest).drop pat.length).length ≤ m := by
            simp only [List.length_drop, List.length_cons]
            omega
          rw [ih _ _ hd hd2]
        · simp only [if_neg hc]
          simp only [List.length_cons] at h1 h2
          rw [ih _ _ (by omega) (by omega : rest.length ≤ m)]

lemma pyReplace_of_not_containsSub (pat rep : List Char) :
    ∀ s, containsSub pat s = false → pyReplace pat rep s = s := by
  intro s
  induction s with
  | nil => intro _; rfl
  | cons c rest ih =>
    intro h
    simp only [containsSub, Bool.or_eq_false_iff] at h
    show pyReplaceAux pat rep (c :: rest).length (c :: rest) = c :: rest
    simp only [List.length_cons, pyReplaceAux]
    rw [if_neg fun hc => absurd hc.2 (by simp [h.1])]
    exact congrArg (c :: ·) (ih h.2)

lemma isPrefixOf_self_append (p s : List Char) : p.isPrefixOf (p ++ s) = true := by
  induction p with
  | nil => simp [List.isPrefixOf]
  | cons a as ih => simp [List.isPrefixOf, ih]

lemma pyReplace_append_self (pat rep s : List Char) (hp : pat ≠ []) :
    pyReplace pat rep (pat ++ s) = rep ++ pyReplace pat rep s := by
  cases pat with
  | nil => exact absurd rfl hp
  | cons a as =>
    show pyReplaceAux (a :: as) rep (a :: (as ++ s)).length (a :: (as ++ s)) = _
    have hlen : (a :: (as ++ s)).length = (as ++ s).length + 1 := rfl
    rw [hlen, pyReplaceAux,
      if_pos ⟨List.cons_ne_nil a as, isPrefixOf_self_append (a :: as) s⟩]
    congr 1
    rw [show (a :: (as ++ s)).drop (a :: as).length = s from List.drop_left (a :: as) s]
    exact pyReplaceAux_congr (a :: as) rep _ _ s (by simp) le_rfl

lemma pyReplace_strip (pat s : List Char) (hp : pat ≠ [])
    (h : containsSub pat s = false) :
    pyReplace pat [] (pat ++ s) = s := by
  rw [pyReplace_append_self pat [] s hp, pyReplace_of_not_containsSub pat [] s h,
    List.nil_append]

lemma build_question_dicts_length (aid loid : Nat) (cv : List Char) (rand : Nat → Nat) :
    ∀ (qs : List ExamInitQuestion) (k0 : Nat) (sr : Int),
      (build_question_dicts aid loid cv rand k0 sr qs).1.length = qs.length := by
  intro qs
  induction qs with
  | nil => intro k0 sr; rfl
  | cons q rest ih => intro k0 sr; simp [build_question_dicts, ih]

lemma build_question_dicts_isEmpty (aid loid : Nat) (cv : List Char) (rand : Nat → Nat)
    (qs : List ExamInitQuestion) (k0 : Nat) (sr : Int) :
    (build_question_dicts aid loid cv rand k0 sr qs).1.isEmpty = qs.isEmpty := by
  cases qs <;> simp [build_question_dicts]

lemma sumFrom_succ_left (rand : Nat → Nat) (k0 : Nat) :
    ∀ n, sumFrom rand k0 (n + 1) = rand k0 + sumFrom rand (k0 + 1) n := by
  intro n
  induction n with
  | zero => simp [sumFrom]
  | succ m ih =>
    have harg : k0 + (m + 1) = k0 + 1 + m := by omega
    calc sumFrom rand k0 (m + 1 + 1)
        = sumFrom rand k0 (m + 1) + rand (k0 + (m + 1)) := rfl
      _ = rand k0 + sumFrom rand (k0 + 1) m + rand (k0 + 1 + m) := by rw [ih, harg]
      _ = rand k0 + (sumFrom rand (k0 + 1) m + rand (k0 + 1 + m)) := by omega
      _ = rand k0 + sumFrom rand (k0 + 1) (m + 1) := rfl

lemma build_question_dicts_get? (aid loid : Nat) (cv : List Char) (rand : Nat → Nat) :
    ∀ (qs : List ExamInitQuestion) (k0 : Nat) (sr : Int) (k : Nat),
      ((build_question_dicts aid loid cv rand k0 sr qs).1)[k]? =
        (qs[k]?).map fun q =>
          { assignment_id := aid
            loid := loid
            question_id := q.id
            readable_answer := q.hint
            attempt := q.attempts + 1
            content_version := cv
            seconds_spent := rand (k0 + k)
            seconds_remaining := sr - (sumFrom rand k0 (k + 1) : Int) } := by
  intro qs
  induction qs with
  | nil => intro k0 sr k; simp [build_question_dicts]
  | cons q rest ih =>
    intro k0 sr k
    cases k with
    | zero =>
      simp [build_question_dicts, sumFrom]
    | succ m =>
      simp only [build_question_dicts, List.getElem?_cons_succ]
      rw [ih]
      cases hrm : rest[m]? with
      | none => rfl
      | some q' =>
        have h1 : k0 + 1 + m = k0 + (m + 1) := by omega
        have h2 : sumFrom rand k0 (m + 1 + 1) = rand k0 + sumFrom rand (k0 + 1) (m + 1) :=
          sumFrom_succ_left rand k0 (m + 1)
        simp only [Option.map_some', QuestionDict.mk.injEq, h1, h2, true_and]
        push_cast
        ring_nf

lemma build_question_dicts_final (aid loid : Nat) (cv : List Char) (rand : Nat → Nat) :
    ∀ (qs : List ExamInitQuestion) (k0 : Nat) (sr : Int),
      (build_question_dicts aid loid cv rand k0 sr qs).2 =
        sr - (sumFrom rand k0 qs.length : Int) := by
  intro qs
  induction qs with
  | nil => intro k0 sr; simp [build_question_dicts, sumFrom]
  | cons q rest ih =>
    intro k0 sr
    simp only [build_question_dicts, List.length_cons]
    rw [ih, sumFrom_succ_left rand k0 rest.length]
    push_cast
    omega

lemma base_url_set_simpath (st : SIMNet) (b : Bool) :
    SIMNet.base_url { st with is_in_simpath := b } = st.base_url := rfl

lemma base_url_set_exam (st : SIMNet) (b : Bool) :
    SIMNet.base_url { st with is_in_exam := b } = st.base_url := rfl

lemma simpath_run_ok_shape (st : SIMNet) (aid dl : Nat) (j : ExamInitResponse)
    (rand : Nat → Nat) (hl : st.logged_in = true)
    (hok : (complete_simpath_exam st aid dl j rand).value = .ok ()) :
    complete_simpath_exam st aid dl j rand =
      ⟨{ st with is_in_simpath := false },
       [⟨.get (simpath_details_url st aid), st⟩,
        ⟨.get (simpath_init_url st dl aid), st⟩,
        ⟨.get (simpath_start_url st j.loid j.assignmentID), st⟩,
        ⟨.get (simpath_end_url { st with is_in_simpath := true } j.loid j.assignmentID 600000),
         { st with is_in_simpath := true }⟩],
       .ok ()⟩ := by
  cases hq : j.questions with
  | nil => simp [complete_simpath_exam, hl, hq, build_question_dicts]
  | cons q qs => simp [complete_simpath_exam, hl, hq, build_question_dicts] at hok

lemma exam_run_ok_shape (st : SIMNet) (aid dl : Nat) (j : ExamInitResponse)
    (rand : Nat → Nat) (hl : st.logged_in = true)
    (hok : (complete_exam st aid dl j rand).value = .ok ()) :
    complete_exam st aid dl j rand =
      ⟨{ st with is_in_exam := false },
       [⟨.get (exam_details_url st aid), st⟩,
        ⟨.get (exam_init_url st dl aid), st⟩,
        ⟨.get (exam_start_url st j.loid j.assignmentID), st⟩,
        ⟨.get (exam_end_url { st with is_in_exam := true } j.loid j.assignmentID 600000),
         { st with is_in_exam := true }⟩],
       .ok ()⟩ := by
  cases hq : j.questions with
  | nil => simp [complete_exam, hl, hq, build_question_dicts]
  | cons q qs => simp [complete_exam, hl, hq, build_question_dicts] at hok

/-- C3 (amended): for a URL whose query splits on `&` into exactly four
fields with the first two of the shapes `l=X` and `a=Y`, and where `X`
does not itself contain the substring `l=` nor `Y` the substring `a=`,
the parser yields `lessonObjectId = X`, `assignmentId = Y`, and
`pageSlug` equal to the URL's fragment verbatim.  (Without the
no-occurrence side conditions the claim fails, because `str.replace`
removes every occurrence, not just the leading marker.) -/
theorem c3_theorem (url X Y f3 f4 : List Char)
    (hq : pySplitChar '&' (urlQuery url) = ["l=".toList ++ X, "a=".toList ++ Y, f3, f4])
    (hx : containsSub "l=".toList X = false)
    (hy : containsSub "a=".toList Y = false) :
    parse_assignment_url url = .ok ⟨X, Y, urlFragment url⟩ := by
  simp only [parse_assignment_url, hq]
  rw [pyReplace_strip "l=".toList X (by decide) hx,
    pyReplace_strip "a=".toList Y (by decide) hy]

/-- C3 counterexample: on a URL whose first query field is `l=1l=2`
(arbitrary string `X = 1l=2` after the marker), the parser produces the
lesson id `12`, not `X`: `str.replace` strips the inner `l=` as well. -/
theorem c3_counterexample :
    parse_assignment_url c3badUrl = .ok ⟨"12".toList, "34".toList, "fr".toList⟩ ∧
    "12".toList ≠ "1l=2".toList :=
  ⟨rfl, by decide⟩

/-- C3 witness: the amended theorem applied to a concrete well-formed URL. -/
theorem c3_witness :
    pySplitChar '&' (urlQuery c3url)
        = ["l=".toList ++ "1744".toList, "a=".toList ++ "4100478".toList,
           "t=5".toList, "redirect_uri=x".toList] ∧
    urlFragment c3url = "ex16_sk_01_01".toList ∧
    parse_assignment_url c3url = .ok ⟨"1744".toList, "4100478".toList, urlFragment c3url⟩ :=
  ⟨rfl, rfl,
   c3_theorem c3url "1744".toList "4100478".toList "t=5".toList "redirect_uri=x".toList
     rfl rfl rfl⟩

/-- C4 (amended): the parser raises exactly when the query does not split
into exactly four `&`-delimited fields — both fewer and more than four
fields make the Python tuple unpacking fail.  A missing `l=` or `a=`
marker never causes a failure: `str.replace` simply leaves the field
unchanged. -/
theorem c4_theorem (url : List Char) :
    (∃ e, parse_assignment_url url = .error e) ↔
      (pySplitChar '&' (urlQuery url)).length ≠ 4 := by
  rcases h : pySplitChar '&' (urlQuery url) with
    _ | ⟨f1, _ | ⟨f2, _ | ⟨f3, _ | ⟨f4, _ | ⟨f5, rest⟩⟩⟩⟩⟩ <;>
  simp [parse_assignment_url, h]

/-- C4 counterexample: a four-field query whose first field lacks the `l=`
marker parses successfully (the claim predicts `MalformedReferenceError`),
and a five-field query with both markers present fails (the claim predicts
success for anything not below four fields with markers present). -/
theorem c4_counterexample :
    parse_assignment_url c4url = .ok ⟨"x=1".toList, "2".toList, "f".toList⟩ ∧
    parse_assignment_url c4url5 = .error (.valueErrorUnpack 4 5) :=
  ⟨rfl, rfl⟩

/-- C4 witness: the amended theorem applied to the concrete five-field URL. -/
theorem c4_witness :
    (pySplitChar '&' (urlQuery c4url5)).length ≠ 4 ∧
    ∃ e, parse_assignment_url c4url5 = .error e :=
  ⟨by decide, (c4_theorem c4url5).mpr (by decide)⟩

/-- C5: on any non-success login response the call raises
`CouldNotLoginError` carrying the response status, reason phrase, the
supplied username and password, and the raw body, and leaves the session
state unchanged; on any success response it sets `logged_in`. -/
theorem c5_theorem (st : SIMNet) (u p : List Char) (resp : HttpResponse) :
    (resp.ok = false →
      (login st u p resp).value =
        .error (.couldNotLogin resp.status resp.reason u p resp.body) ∧
      (login st u p resp).state = st) ∧
    (resp.ok = true →
      (login st u p resp).value = .ok () ∧
      (login st u p resp).state.logged_in = true) := by
  constructor <;> intro h <;> simp [login, h]

/-- C5 witness: the spec's scenario — status 403 with body
`invalid credentials` — leaves a fresh session logged out and raises the
error with all five diagnostic fields. -/
theorem c5_witness :
    resp403.ok = false ∧
    (login exStOut "user".toList "pw".toList resp403).value =
      .error (.couldNotLogin 403 "Forbidden".toList "user".toList "pw".toList
        "invalid credentials".toList) ∧
    (login exStOut "user".toList "pw".toList resp403).state.logged_in = false := by
  have h := (c5_theorem exStOut "user".toList "pw".toList resp403).1 rfl
  refine ⟨rfl, ?_, ?_⟩
  · rw [h.1]; rfl
  · rw [h.2]; rfl

/-- C6: every guarded operation raises `NotLoggedInError` — with no
request issued — when `logged_in` is false, and the per-question
submissions raise `SIMPathNotStartedError` / `SIMNetExamNotStartedError`
— again with no request issued — when the corresponding exam-phase flag
is unset. -/
theorem c6_theorem (st : SIMNet) (url : List Char) (tcid ts : Nat) (resp : HttpResponse)
    (td : TaskDict) (ts2 : Nat) (resp2 : HttpResponse) (aid dl : Nat)
    (results : List SimbookDetailsResult) (j : ExamInitResponse) (rand : Nat → Nat)
    (d : QuestionDict) :
    (st.logged_in = false →
      complete_simbook_assignment_from_url st url tcid ts resp
          = ⟨st, [], .error .notLoggedIn⟩ ∧
      complete_simbook_assignment_from_dict st td ts2 resp2
          = ⟨st, [], .error .notLoggedIn⟩ ∧
      get_simbook_assignments st aid results = ⟨st, [], .error .notLoggedIn⟩ ∧
      complete_simpath_exam st aid dl j rand = ⟨st, [], .error .notLoggedIn⟩ ∧
      complete_exam st aid dl j rand = ⟨st, [], .error .notLoggedIn⟩ ∧
      _complete_simpath_question st d = ⟨st, [], .error .notLoggedIn⟩ ∧
      _complete_exam_question st d = ⟨st, [], .error .notLoggedIn⟩) ∧
    (st.logged_in = true → st.is_in_simpath = false →
      _complete_simpath_question st d = ⟨st, [], .error .simpathNotStarted⟩) ∧
    (st.logged_in = true → st.is_in_exam = false →
      _complete_exam_question st d = ⟨st, [], .error .examNotStarted⟩) := by
  refine ⟨fun h => ⟨?_, ?_, ?_, ?_, ?_, ?_, ?_⟩, fun h h2 => ?_, fun h h2 => ?_⟩ <;>
  simp [complete_simbook_assignment_from_url, complete_simbook_assignment_from_dict,
    get_simbook_assignments, complete_simpath_exam, complete_exam,
    _complete_simpath_question, _complete_exam_question, *]

/-- C6 witness: concrete guard violations for both kinds of guard. -/
theorem c6_witness :
    exStOut.logged_in = false ∧
    _complete_simpath_question exStOut exQd = ⟨exStOut, [], .error .notLoggedIn⟩ ∧
    _complete_simpath_question exSt exQd = ⟨exSt, [], .error .simpathNotStarted⟩ := by
  have h := c6_theorem exStOut "u".toList 1 2 resp403 exTask 3 resp403 4 5 [] c2init
    constRand exQd
  have h2 := c6_theorem exSt "u".toList 1 2 resp403 exTask 3 resp403 4 5 [] c2init
    constRand exQd
  exact ⟨rfl, (h.1 rfl).2.2.2.2.2.1, h2.2.1 rfl rfl⟩

/-- C8: on an authenticated session, both single-task completion
operations return `req.ok` as a boolean — `.ok false`, not an exception,
on a non-success HTTP response — and leave the session state unchanged. -/
theorem c8_theorem (st : SIMNet) (hl : st.logged_in = true)
    (url : List Char) (r : AssignmentRef) (hp : parse_assignment_url url = .ok r)
    (tcid ts : Nat) (resp : HttpResponse)
    (td : TaskDict) (ts2 : Nat) (resp2 : HttpResponse) :
    (complete_simbook_assignment_from_url st url tcid ts resp).value = .ok resp.ok ∧
    (complete_simbook_assignment_from_url st url tcid ts resp).state = st ∧
    (complete_simbook_assignment_from_dict st td ts2 resp2).value = .ok resp2.ok ∧
    (complete_simbook_assignment_from_dict st td ts2 resp2).state = st := by
  refine ⟨?_, ?_, ?_, ?_⟩ <;>
  simp [complete_simbook_assignment_from_url, complete_simbook_assignment_from_dict, hl, hp]

/-- C8 witness: a 500 response makes both completers return `false`
rather than raise. -/
theorem c8_witness :
    resp500.ok = false ∧
    (complete_simbook_assignment_from_url exSt c3url 362745216 60 resp500).value
        = .ok false ∧
    (complete_simbook_assignment_from_dict exSt exTask 60 resp500).value = .ok false := by
  have h := c8_theorem exSt rfl c3url
    ⟨"1744".toList, "4100478".toList, "ex16_sk_01_01".toList⟩ rfl 362745216 60 resp500
    exTask 60 resp500
  exact ⟨rfl, h.1, h.2.2.1⟩

/-- C1 (amended): the budget recorded in the k-th question dict
(0-indexed) has already been decremented by that question's own duration,
so the payload built by either per-question submission method reports
`secondsRemaining = min(600000 - (s1+...+s(k+1)), 600000 - s(k+1))
= 600000 - (s1+...+s(k+1))` — not the claimed
`min(600000 - (s1+...+sk), 600000 - s(k+1))` — and the final budget
passed to the end call is `600000 - sum(all s)`. -/
theorem c1_theorem (st : SIMNet) (hl : st.logged_in = true)
    (hs : st.is_in_simpath = true) (he : st.is_in_exam = true)
    (j : ExamInitResponse) (rand : Nat → Nat) :
    (∀ k d,
      ((build_question_dicts j.assignmentID j.loid j.contentVersion rand 0 600000
          j.questions).1)[k]? = some d →
        ((postedPayloads (_complete_simpath_question st d)).map fun p => p.secondsRemaining)
            = [600000 - (sumFrom rand 0 (k + 1) : Int)] ∧
        ((postedPayloads (_complete_exam_question st d)).map fun p => p.secondsRemaining)
            = [600000 - (sumFrom rand 0 (k + 1) : Int)] ∧
        min d.seconds_remaining (600000 - (d.seconds_spent : Int))
            = 600000 - (sumFrom rand 0 (k + 1) : Int) ∧
        d.seconds_spent = rand k) ∧
    (build_question_dicts j.assignmentID j.loid j.contentVersion rand 0 600000
        j.questions).2 = 600000 - (sumFrom rand 0 j.questions.length : Int) := by
  constructor
  · intro k d hd
    rw [build_question_dicts_get?] at hd
    cases hq : j.questions[k]? with
    | none => rw [hq] at hd; exact absurd hd (by simp)
    | some q =>
      rw [hq, Option.map_some'] at hd
      have hd' := Option.some.inj hd
      subst hd'
      have h0k : 0 + k = k := Nat.zero_add k
      have hle : (rand k : Int) ≤ (sumFrom rand 0 (k + 1) : Int) := by
        have h9 : rand k ≤ sumFrom rand 0 (k + 1) := by
          have hsum : sumFrom rand 0 (k + 1) = sumFrom rand 0 k + rand (0 + k) := rfl
          rw [hsum, h0k]
          omega
        exact_mod_cast h9
      have hmin : min ((600000 : Int) - (sumFrom rand 0 (k + 1) : Int))
          (600000 - (rand (0 + k) : Int)) = 600000 - (sumFrom rand 0 (k + 1) : Int) := by
        apply min_eq_left
        rw [h0k]
        omega
      refine ⟨?_, ?_, ?_, ?_⟩
      · simp only [_complete_simpath_question, hl, hs, Bool.not_true, Bool.false_eq_true,
          if_false, postedPayloads, List.filterMap]
        simp [h0k]
        omega
      · simp only [_complete_exam_question, hl, he, Bool.not_true, Bool.false_eq_true,
          if_false, postedPayloads, List.filterMap]
        simp [h0k]
        omega
      · exact hmin
      · exact congrArg rand h0k
  · rw [build_question_dicts_final]

/-- C1 counterexample: in a two-question SIMpath run with durations
`s1 = 100`, `s2 = 50`, the payload built by `_complete_simpath_question`
for the second question dict reports `secondsRemaining = 599850
= 600000 - (s1 + s2)`, whereas the claimed formula
`min(600000 - s1, 600000 - s2)` gives `599900`. -/
theorem c1_counterexample :
    ((build_question_dicts c1init.assignmentID c1init.loid c1init.contentVersion c1rand 0
        600000 c1init.questions).1.map fun d =>
      (postedPayloads (_complete_simpath_question exStPhase d)).map fun p =>
        p.secondsRemaining) = [[599900], [599850]] ∧
    min (600000 - (100 : Int)) (600000 - 50) = 599900 ∧
    (599850 : Int) ≠ min (600000 - (100 : Int)) (600000 - 50) :=
  ⟨rfl, by decide, by decide⟩

/-- C1 witness: the amended theorem applied to the second dict of the
concrete two-question run; the reported budget is `600000 - (100 + 50)`. -/
theorem c1_witness :
    ((postedPayloads (_complete_simpath_question exStPhase
        { assignment_id := 4100478
          loid := 174400
          question_id := "q2".toList
          readable_answer := "h2".toList
          attempt := 2
          content_version := "V3".toList
          seconds_spent := 50
          seconds_remaining := 599850 })).map fun p => p.secondsRemaining)
      = [600000 - (sumFrom c1rand 0 2 : Int)] ∧
    600000 - (sumFrom c1rand 0 2 : Int) = 599850 := by
  have h := (c1_theorem exStPhase rfl rfl rfl c1init c1rand).1 1 _ rfl
  exact ⟨h.1, by decide⟩

/-- C2: across a completing practice run followed by a completing graded
run in the same session, the exam-phase flags are Idle on every request
up to and including the start call, the variant's flag is set on the end
call, and both flags are Idle again after each run returns. -/
theorem c2_theorem (st : SIMNet) (hl : st.logged_in = true)
    (h1 : st.is_in_simpath = false) (h2 : st.is_in_exam = false)
    (aid dl : Nat) (j : ExamInitResponse) (rand : Nat → Nat)
    (aid2 dl2 : Nat) (j2 : ExamInitResponse) (rand2 : Nat → Nat)
    (hok1 : (complete_simpath_exam st aid dl j rand).value = .ok ())
    (hok2 : (complete_exam (complete_simpath_exam st aid dl j rand).state aid2 dl2 j2
        rand2).value = .ok ()) :
    ((complete_simpath_exam st aid dl j rand).events.map fun e =>
        (e.snap.is_in_simpath, e.snap.is_in_exam))
      = [(false, false), (false, false), (false, false), (true, false)] ∧
    ((complete_simpath_exam st aid dl j rand).events.map fun e => e.req)
      = [.get (simpath_details_url st aid), .get (simpath_init_url st dl aid),
         .get (simpath_start_url st j.loid j.assignmentID),
         .get (simpath_end_url { st with is_in_simpath := true } j.loid j.assignmentID
           600000)] ∧
    (complete_simpath_exam st aid dl j rand).state.is_in_simpath = false ∧
    (complete_simpath_exam st aid dl j rand).state.is_in_exam = false ∧
    ((complete_exam (complete_simpath_exam st aid dl j rand).state aid2 dl2 j2
        rand2).events.map fun e => (e.snap.is_in_simpath, e.snap.is_in_exam))
      = [(false, false), (false, false), (false, false), (false, true)] ∧
    (complete_exam (complete_simpath_exam st aid dl j rand).state aid2 dl2 j2
        rand2).state.is_in_simpath = false ∧
    (complete_exam (complete_simpath_exam st aid dl j rand).state aid2 dl2 j2
        rand2).state.is_in_exam = false := by
  have s1 := simpath_run_ok_shape st aid dl j rand hl hok1
  have hl2 : (complete_simpath_exam st aid dl j rand).state.logged_in = true := by
    rw [s1]; exact hl
  have s2 := exam_run_ok_shape _ aid2 dl2 j2 rand2 hl2 hok2
  rw [s1] at s2 ⊢
  rw [s2]
  simp [h1, h2]

/-- C2 witness: two consecutive zero-question runs from a fresh logged-in
session; both runs end with both flags Idle. -/
theorem c2_witness :
    (complete_simpath_exam exSt 1 2 c2init constRand).state.is_in_simpath = false ∧
    (complete_exam (complete_simpath_exam exSt 1 2 c2init constRand).state 3 4 c2init
      constRand).state.is_in_exam = false := by
  have h := c2_theorem exSt rfl rfl rfl 1 2 c2init constRand 3 4 c2init constRand rfl rfl
  exact ⟨h.2.2.1, h.2.2.2.2.2.2⟩

/-- C7: the code prepares attempt numbers `prior attempts + 1` for each
question, in order (first conjunct), but on any run with at least one
question both runners crash — `AttributeError` in the practice loop,
`NameError` in the graded loop — before submitting a single answer, so no
answers at all are submitted, contradicting the claim that all `n` are. -/
theorem c7_theorem :
    ((build_question_dicts c7init.assignmentID c7init.loid c7init.contentVersion c7rand 0
        600000 c7init.questions).1.map fun d => d.attempt) = [1, 2, 3] ∧
    (complete_simpath_exam exSt 4100478 1744 c7init c7rand).value =
      .error (.attributeError "complete_simpath_question".toList) ∧
    postedPayloads (complete_simpath_exam exSt 4100478 1744 c7init c7rand) = [] ∧
    (complete_exam exSt 4100478 1744 c7init c7rand).value =
      .error (.nameError "time".toList) ∧
    postedPayloads (complete_exam exSt 4100478 1744 c7init c7rand) = [] :=
  ⟨rfl, rfl, rfl, rfl, rfl⟩

/-- C9: on any run whose initialization returns at least one question, the
practice runner raises `AttributeError` (it invokes
`complete_simpath_question`, which is not defined on the class) and the
graded runner raises `NameError` (`time` is never imported), in both cases
after the start call and before any `saveanswer` POST: the trace is
exactly the three GETs, the end call is never issued, and the variant's
exam-phase flag remains set. -/
theorem c9_theorem (st : SIMNet) (hl : st.logged_in = true) (aid dl : Nat)
    (j : ExamInitResponse) (q : ExamInitQuestion) (qs : List ExamInitQuestion)
    (hq : j.questions = q :: qs) (rand : Nat → Nat) :
    complete_simpath_exam st aid dl j rand =
      ⟨{ st with is_in_simpath := true },
       [⟨.get (simpath_details_url st aid), st⟩,
        ⟨.get (simpath_init_url st dl aid), st⟩,
        ⟨.get (simpath_start_url st j.loid j.assignmentID), st⟩],
       .error (.attributeError "complete_simpath_question".toList)⟩ ∧
    complete_exam st aid dl j rand =
      ⟨{ st with is_in_exam := true },
       [⟨.get (exam_details_url st aid), st⟩,
        ⟨.get (exam_init_url st dl aid), st⟩,
        ⟨.get (exam_start_url st j.loid j.assignmentID), st⟩],
       .error (.nameError "time".toList)⟩ := by
  constructor <;>
  simp [complete_simpath_exam, complete_exam, hl, hq, build_question_dicts]

/-- C9 witness: a concrete one-question run leaves the flag set and posts
nothing. -/
theorem c9_witness :
    (complete_simpath_exam exSt 1 2 c9init constRand).state.is_in_simpath = true ∧
    postedPayloads (complete_simpath_exam exSt 1 2 c9init constRand) = [] ∧
    (complete_exam exSt 1 2 c9init constRand).state.is_in_exam = true := by
  have h := c9_theorem exSt rfl 1 2 c9init ⟨"q".toList, "h".toList, 0⟩ [] rfl constRand
  refine ⟨?_, ?_, ?_⟩
  · rw [h.1]
  · rw [h.1]; rfl
  · rw [h.2]

/-- C10: the graded per-question submission posts to the bare path
`/api/simnetexams/{loid}/saveanswer/{aid}/1`, which no choice of `t` can
write as `base_url ++ t`, whereas the practice submission and every
request of every other operation targets `base_url ++ <path>`. -/
theorem c10_theorem (st : SIMNet) (hl : st.logged_in = true)
    (hs : st.is_in_simpath = true) (he : st.is_in_exam = true) (d : QuestionDict)
    (u1 p1 : List Char) (resp : HttpResponse) (td : TaskDict) (ts : Nat)
    (resp2 : HttpResponse) (aid dl aid2 : Nat) (results : List SimbookDetailsResult)
    (j : ExamInitResponse) (rand : Nat → Nat) :
    postedUrls (_complete_simpath_question st d) =
      [st.base_url ++ ("/api/simpathexams/".toList ++ natChars d.loid ++
        "/saveanswer/".toList ++ natChars d.assignment_id ++ "/1".toList)] ∧
    postedUrls (_complete_exam_question st d) =
      ["/api/simnetexams/".toList ++ natChars d.loid ++ "/saveanswer/".toList ++
        natChars d.assignment_id ++ "/1".toList] ∧
    (∀ u ∈ postedUrls (_complete_exam_question st d), ¬ ∃ t, u = st.base_url ++ t) ∧
    (∀ u ∈ postedUrls (_complete_simpath_question st d), ∃ t, u = st.base_url ++ t) ∧
    (∀ u ∈ eventUrls (login st u1 p1 resp), ∃ t, u = st.base_url ++ t) ∧
    (∀ u ∈ eventUrls (complete_simbook_assignment_from_dict st td ts resp2),
      ∃ t, u = st.base_url ++ t) ∧
    (∀ u ∈ eventUrls (get_simbook_assignments st aid2 results), ∃ t, u = st.base_url ++ t) ∧
    (∀ u ∈ eventUrls (complete_simpath_exam st aid dl j rand), ∃ t, u = st.base_url ++ t) ∧
    (∀ u ∈ eventUrls (complete_exam st aid dl j rand), ∃ t, u = st.base_url ++ t) := by
  refine ⟨?_, ?_, ?_, ?_, ?_, ?_, ?_, ?_, ?_⟩
  · simp [postedUrls, _complete_simpath_question, hl, hs, List.append_assoc]
  · simp [postedUrls, _complete_exam_question, hl, he]
  · intro u hu h
    obtain ⟨t, ht⟩ := h
    simp [postedUrls, _complete_exam_question, hl, he] at hu
    subst hu
    rw [show st.base_url
        = 'h' :: ("ttp://".toList ++ st.school ++ ".simnetonline.com".toList) from rfl,
      List.cons_append] at ht
    injection ht with hh _
    exact absurd hh (by decide)
  · intro u hu
    simp [postedUrls, _complete_simpath_question, hl, hs] at hu
    subst hu
    try simp only [List.append_assoc]
    exact ⟨_, rfl⟩
  · intro u hu
    by_cases hok : resp.ok = true <;>
      simp [eventUrls, requestUrl, login, hok] at hu <;> subst hu <;> exact ⟨_, rfl⟩
  · intro u hu
    simp [eventUrls, requestUrl, complete_simbook_assignment_from_dict, hl] at hu
    subst hu
    try simp only [List.append_assoc]
    exact ⟨_, rfl⟩
  · intro u hu
    cases results with
    | nil =>
      simp [eventUrls, requestUrl, get_simbook_assignments, hl] at hu
      subst hu
      try simp only [List.append_assoc]
      exact ⟨_, rfl⟩
    | cons r rs =>
      simp [eventUrls, requestUrl, get_simbook_assignments, hl] at hu
      subst hu
      try simp only [List.append_assoc]
      exact ⟨_, rfl⟩
  · intro u hu
    cases hq : j.questions with
    | nil =>
      simp [eventUrls, requestUrl, complete_simpath_exam, hl, hq,
        build_question_dicts] at hu
      rcases hu with hu | hu | hu | hu <;> subst hu <;>
        simp only [simpath_details_url, simpath_init_url, simpath_start_url,
          simpath_end_url, base_url_set_simpath, List.append_assoc] <;>
        exact ⟨_, rfl⟩
    | cons q qs =>
      simp [eventUrls, requestUrl, complete_simpath_exam, hl, hq,
        build_question_dicts] at hu
      rcases hu with hu | hu | hu <;> subst hu <;>
        simp only [simpath_details_url, simpath_init_url, simpath_start_url,
          List.append_assoc] <;>
        exact ⟨_, rfl⟩
  · intro u hu
    cases hq : j.questions with
    | nil =>
      simp [eventUrls, requestUrl, complete_exam, hl, hq, build_question_dicts] at hu
      rcases hu with hu | hu | hu | hu <;> subst hu <;>
        simp only [exam_details_url, exam_init_url, exam_start_url, exam_end_url,
          base_url_set_exam, List.append_assoc] <;>
        exact ⟨_, rfl⟩
    | cons q qs =>
      simp [eventUrls, requestUrl, complete_exam, hl, hq, build_question_dicts] at hu
      rcases hu with hu | hu | hu <;> subst hu <;>
        simp only [exam_details_url, exam_init_url, exam_start_url,
          List.append_assoc] <;>
        exact ⟨_, rfl⟩

/-- C10 witness: the concrete graded submission URL is the bare path and
cannot be written as `base_url ++ t`. -/
theorem c10_witness :
    postedUrls (_complete_exam_question exStPhase exQd) =
      ["/api/simnetexams/".toList ++ natChars exQd.loid ++ "/saveanswer/".toList ++
        natChars exQd.assignment_id ++ "/1".toList] ∧
    ¬ ∃ t, ("/api/simnetexams/".toList ++ natChars exQd.loid ++ "/saveanswer/".toList ++
        natChars exQd.assignment_id ++ "/1".toList) = exStPhase.base_url ++ t := by
  have h := c10_theorem exStPhase rfl rfl rfl exQd "u".toList "p".toList resp403 exTask
    1 resp403 2 3 4 [] c2init constRand
  exact ⟨h.2.1, fun hex => h.2.2.1 _ (by rw [h.2.1]; exact List.mem_singleton_self _) hex⟩

end Simnet
